import Mathlib

/-!
Shallow embedding of the request-construction, guarding, error-handling and
result-rendering logic of the Seedream 4.0 Studio front end (src/app.py),
with theorems settling the frozen claims about it.

Python integers are modelled as `Int`; a Python value that may be absent
(`None`, or a missing JSON key) is an `Option`; a Python function that may
raise is an `Except String` value, with the exception's message as the error.
-/

/-- JSON `image_size` object: `{"width": w, "height": h}`. -/
structure ImageSize where
  width : Int
  height : Int
deriving DecidableEq

/-- The three entries of the `selectbox` at src/app.py:89-94:
`Square (1280x1280)`, `Portrait (1024x1792)`, `Landscape (1792x1024)`. -/
inductive SizeOptionT2I
  | square
  | portrait
  | landscape
deriving DecidableEq

/-- `image_size_map` dict, src/app.py:107-111. -/
def image_size_map : SizeOptionT2I → ImageSize
  | .square => { width := 1280, height := 1280 }
  | .portrait => { width := 1024, height := 1792 }
  | .landscape => { width := 1792, height := 1024 }

/-- Outgoing JSON body of the text-to-image request (src/app.py:112-120).
`seed = none` models the `seed` key being absent from the payload dict. -/
structure T2IPayload where
  prompt : String
  image_size : ImageSize
  num_images : Nat
  max_images : Nat
  enable_safety_checker : Bool
  seed : Option Int
deriving DecidableEq

/-- Payload build of the text-to-image tab, src/app.py:112-120: the dict
literal (safety checker hard-coded to `False`) followed by
`if seed_t2i > 0: payload["seed"] = seed_t2i`. -/
def build_t2i_payload (prompt : String) (opt : SizeOptionT2I) (nimg mimg : Nat)
    (seed : Int) : T2IPayload :=
  { prompt := prompt
    image_size := image_size_map opt
    num_images := nimg
    max_images := mimg
    enable_safety_checker := false
    seed := if seed > 0 then some seed else none }

/-- Outgoing JSON body of the edit request (src/app.py:225-237). -/
structure EditPayload where
  prompt : String
  image_urls : List String
  image_size : ImageSize
  num_images : Nat
  max_images : Nat
  enable_safety_checker : Bool
  seed : Option Int
deriving DecidableEq

/-- Payload build of the edit tab, src/app.py:225-237: dict literal with
`image_size` taken from the (already session-clamped) state values, safety
checker hard-coded to `False`, then `if seed_edit > 0: payload["seed"] = seed_edit`. -/
def build_edit_payload (prompt : String) (image_urls : List String)
    (edit_width edit_height : Int) (nimg mimg : Nat) (seed : Int) : EditPayload :=
  { prompt := prompt
    image_urls := image_urls
    image_size := { width := edit_width, height := edit_height }
    num_images := nimg
    max_images := mimg
    enable_safety_checker := false
    seed := if seed > 0 then some seed else none }

/-- The clamp `max(1024, min(4096, v))` used at src/app.py:174-175 and 204-205. -/
def clampDim (v : Int) : Int := max 1024 (min 4096 v)

/-- The unconditional re-clamp of the session width/height that runs on every
render pass before the payload is built, src/app.py:204-205. -/
def edit_session_clamp (w h : Int) : Int × Int := (clampDim w, clampDim h)

/-- Outcome of the `Analyze & Set Resolution from First URL` handler on a
successful probe, src/app.py:172-182: the detected dimensions are clamped,
stored as the base size, and a warning is shown exactly when clamping
changed either dimension (src/app.py:181-182). -/
structure DetectResult where
  base_width : Int
  base_height : Int
  clamp_warning : Bool
deriving DecidableEq

/-- Detection handler body, src/app.py:172-182:
`final_w = max(1024, min(4096, w))`, same for `h`; base size is set to the
clamped values; `st.warning(...)` fires iff `final_w != original_w or
final_h != original_h`. -/
def analyze_set_resolution (w h : Int) : DetectResult :=
  let final_w := clampDim w
  let final_h := clampDim h
  { base_width := final_w
    base_height := final_h
    clamp_warning := final_w != w || final_h != h }

/-- The `2x Scale` button handler, src/app.py:200-202:
`edit_width = min(4096, int(base_width * 2))` (and likewise for height);
no warning is emitted on this path. -/
def scale2x (b : Int) : Int := min 4096 (b * 2)

/-- The `1.5x Scale` button handler, src/app.py:197-199:
`min(4096, int(base * 1.5))`. For the base values that can occur
(1024 ≤ b ≤ 4096) the float product `b * 1.5` is exact and `int` truncates
towards zero on a non-negative value, so it equals `⌊3b/2⌋`. -/
def scale1_5x (b : Int) : Int := min 4096 (Int.ediv (3 * b) 2)

/-- End-to-end result of probing an image, pressing `2x Scale`, and letting
the render-pass clamp (src/app.py:204-205) run before the payload is built.
`preclamp_width`/`preclamp_height` are the doubled base size before any
`min`/`max` is applied; `clamp_warning` records whether any warning was
emitted anywhere on this path (only the detection step, src/app.py:182,
ever emits one — the scale handler and the pre-send clamp are silent). -/
structure Scale2xOutcome where
  preclamp_width : Int
  preclamp_height : Int
  sent_width : Int
  sent_height : Int
  clamp_warning : Bool
deriving DecidableEq

/-- Composition of src/app.py:172-182 (detection), 200-202 (2x scale) and
204-205 (render-pass clamp). -/
def detect_then_scale2x (w h : Int) : Scale2xOutcome :=
  let d := analyze_set_resolution w h
  let pw := d.base_width * 2
  let ph := d.base_height * 2
  let final := edit_session_clamp (min 4096 pw) (min 4096 ph)
  { preclamp_width := pw
    preclamp_height := ph
    sent_width := final.1
    sent_height := final.2
    clamp_warning := d.clamp_warning }

/-- The two endpoint constants, src/app.py:16-17. -/
def TEXT_TO_IMAGE_URL : String := "https://fal.run/fal-ai/bytedance/seedream/v4/text-to-image"

def IMAGE_EDIT_URL : String := "https://fal.run/fal-ai/bytedance/seedream/v4/edit"

/-- What a button click resolves to: a blocking error message (`st.error`),
a blocking warning message (`st.warning`), or an API call carrying the
payload that will be POSTed. -/
inductive UIAction (π : Type)
  | errorMsg (msg : String)
  | warnMsg (msg : String)
  | apiCall (url : String) (payload : π)
deriving DecidableEq

def UIAction.isApiCall {π : Type} : UIAction π → Bool
  | .apiCall _ _ => true
  | _ => false

def UIAction.isBlockingMessage {π : Type} : UIAction π → Bool
  | .errorMsg _ => true
  | .warnMsg _ => true
  | .apiCall _ _ => false

/-- The `Generate Image(s)` click guard, src/app.py:99-122: missing key
(`not FAL_KEY`, i.e. `None` or empty — modelled as the empty string) shows an
error; empty prompt shows a warning; otherwise `make_api_request` is reached. -/
def generate_click (FAL_KEY prompt_t2i : String) (opt : SizeOptionT2I)
    (nimg mimg : Nat) (seed : Int) : UIAction T2IPayload :=
  if FAL_KEY = "" then
    .errorMsg "🔑 Fal AI API Key is missing. Please enter your key in the sidebar."
  else if prompt_t2i = "" then
    .warnMsg "Please enter a prompt to generate an image."
  else
    .apiCall TEXT_TO_IMAGE_URL (build_t2i_payload prompt_t2i opt nimg mimg seed)

/-- The `Edit Image(s)` click guard, src/app.py:217-246: missing key shows an
error; empty prompt or empty URL list shows a warning; otherwise
`make_api_request` is reached with the edit payload. -/
def edit_click (FAL_KEY prompt_edit : String) (image_urls_list : List String)
    (edit_width edit_height : Int) (nimg mimg : Nat) (seed : Int) : UIAction EditPayload :=
  if FAL_KEY = "" then
    .errorMsg "🔑 Fal AI API Key is missing. Please enter your key in the sidebar."
  else if prompt_edit = "" ∨ image_urls_list = [] then
    .warnMsg "Please provide editing instructions and at least one image URL."
  else
    .apiCall IMAGE_EDIT_URL
      (build_edit_payload prompt_edit image_urls_list edit_width edit_height nimg mimg seed)

/-- The exceptions that can escape `make_api_request` (src/app.py:20-28),
following the `requests` hierarchy: `HTTPError` (raised by
`raise_for_status` on a non-2xx response, carrying status and body),
`ConnectionError` (DNS failure, refused connection), `Timeout`, and any
other exception. -/
inductive PyExc
  | httpError (status : Int) (body : String)
  | connectionError (msg : String)
  | timeout (msg : String)
  | otherExc (msg : String)
deriving DecidableEq

/-- What the except-chain at src/app.py:135-138 (and identically 260-263)
produces: the first clause catches exactly `requests.exceptions.HTTPError`;
the second, `except Exception`, catches everything else — including
`ConnectionError` and `Timeout`, which are NOT `HTTPError` subclasses. -/
inductive Handled
  | httpKind (status : Int) (body : String)
  | genericKind (msg : String)
deriving DecidableEq

inductive ErrKind
  | http
  | generic
deriving DecidableEq

def Handled.kind : Handled → ErrKind
  | .httpKind _ _ => .http
  | .genericKind _ => .generic

/-- Translation of the except-chain src/app.py:135-138: `HTTPError` is matched
first; every other exception falls through to the generic handler. -/
def handle_request_error : PyExc → Handled
  | .httpError s b => .httpKind s b
  | .connectionError m => .genericKind m
  | .timeout m => .genericKind m
  | .otherExc m => .genericKind m

/-- Headers built inside `make_api_request`, src/app.py:22-25. This is the
only place the API key is interpolated into any string. -/
def build_headers (api_key : String) : List (String × String) :=
  [("Authorization", "Key " ++ api_key), ("Content-Type", "application/json")]

/-- The error text rendered by the except handlers, src/app.py:135-138.
`FAL_KEY` is in scope in those handlers (they are inside the closure that
holds it), so it is a parameter here; the rendered text is built solely from
the exception. -/
def render_error_text (FAL_KEY : String) (e : PyExc) : String :=
  match e with
  | .httpError s b => "API Request Failed: " ++ toString s ++ " - " ++ b
  | .connectionError m => "An unexpected error occurred: " ++ m
  | .timeout m => "An unexpected error occurred: " ++ m
  | .otherExc m => "An unexpected error occurred: " ++ m

/-- One element of the response's `images` array. -/
structure ImageObj where
  url : String
deriving DecidableEq

/-- Parsed JSON response of either endpoint. `images = none` models the
`images` key being absent; `seed = none` models a missing `seed` key. -/
structure ApiResponse where
  images : Option (List ImageObj)
  seed : Option Int
deriving DecidableEq

/-- The seed line `st.info(f"**Seed used:** {result.get('seed', 'N/A')}")`,
src/app.py:126 and 251. -/
def seed_used_line (s : Option Int) : String :=
  "**Seed used:** " ++ (match s with | some v => toString v | none => "N/A")

/-- What the success-path renderer produces: a success view (seed line plus
one (url, caption) pair per image), a warning view carrying the raw response
(`st.warning` + `st.json(result)`), or an error view (`st.error`, used only
by the except handlers). -/
inductive Rendered
  | successView (seedLine : String) (images : List (String × String))
  | warningView (raw : ApiResponse)
  | errorView (msg : String)
deriving DecidableEq

/-- Result rendering, src/app.py:124-133 (text-to-image, with captions
`Generated Image {i+1}`) and 249-258 (edit, `Edited Image {i+1}`):
`if "images" in result and result["images"]:` — a present, non-empty list —
shows the seed line and each image with its 1-based index; otherwise a
warning plus the raw JSON is shown. -/
def render_result (captionPrefix : String) (r : ApiResponse) : Rendered :=
  match r.images with
  | some (img :: rest) =>
      .successView (seed_used_line r.seed)
        ((img :: rest).enum.map (fun pr => (pr.2.url, captionPrefix ++ toString (pr.1 + 1))))
  | some [] => .warningView r
  | none => .warningView r

/-- Content of the HTTP body fetched by the resolution prober: either decodable
image bytes or something `PIL.Image.open` rejects. -/
inductive ByteContent
  | imageBytes (w h : Int)
  | nonImage (msg : String)
deriving DecidableEq

/-- Outcome of `requests.get(url, stream=True, timeout=10)` at src/app.py:34:
either the transport fails (bad URL / DNS / connection / timeout — the raised
exception's message) or an HTTP response with a status and body arrives. -/
inductive ProbeOutcome
  | netFail (msg : String)
  | httpResp (status : Int) (content : ByteContent)
deriving DecidableEq

/-- `requests.get` as a fallible step: transport failure raises. -/
def probe_requests_get : ProbeOutcome → Except String (Int × ByteContent)
  | .netFail m => .error m
  | .httpResp s c => .ok (s, c)

/-- `response.raise_for_status()` at src/app.py:35: raises `HTTPError` on a
4xx/5xx status. -/
def probe_raise_for_status (status : Int) : Except String Unit :=
  if 400 ≤ status then .error ("HTTP error " ++ toString status) else .ok ()

/-- `Image.open(BytesIO(response.content))` at src/app.py:36: raises on
undecodable content. -/
def image_open : ByteContent → Except String (Int × Int)
  | .imageBytes w h => .ok (w, h)
  | .nonImage m => .error m

/-- The `try` body of `get_image_resolution`, src/app.py:34-37: get, then
raise_for_status, then decode; any raised exception propagates out of the body. -/
def probe_body (o : ProbeOutcome) : Except String (Int × Int) :=
  match probe_requests_get o with
  | .error m => .error m
  | .ok (s, c) =>
    match probe_raise_for_status s with
    | .error m => .error m
    | .ok _ => image_open c

/-- `get_image_resolution`, src/app.py:30-40: the whole body is wrapped in
`try ... except Exception: return None, None`, so every exception is caught
and mapped to the `(None, None)` sentinel; on success `img.size` is returned. -/
def get_image_resolution (o : ProbeOutcome) : Option Int × Option Int :=
  match probe_body o with
  | .ok (w, h) => (some w, some h)
  | .error _ => (none, none)

-- ------------------------------------------------------------------
-- Helper lemmas
-- ------------------------------------------------------------------

theorem clampDim_lower (v : Int) : 1024 ≤ clampDim v := le_max_left _ _

theorem clampDim_upper (v : Int) : clampDim v ≤ 4096 :=
  max_le (by norm_num) (min_le_left _ _)

-- ------------------------------------------------------------------
-- Claims
-- ------------------------------------------------------------------

/-- C1: for every seed input ≤ 0 the outgoing payload (text-to-image and
edit) omits the `seed` field entirely; for every seed input > 0 the payload
contains a `seed` field equal to that input. -/
theorem C1_seed_inclusion (p : String) (opt : SizeOptionT2I) (nimg mimg : Nat)
    (s : Int) (urls : List String) (w h : Int) :
    (s ≤ 0 →
        (build_t2i_payload p opt nimg mimg s).seed = none
      ∧ (build_edit_payload p urls w h nimg mimg s).seed = none)
  ∧ (0 < s →
        (build_t2i_payload p opt nimg mimg s).seed = some s
      ∧ (build_edit_payload p urls w h nimg mimg s).seed = some s) := by
  constructor
  · intro hle
    have hneg : ¬ (s > 0) := not_lt.mpr hle
    simp [build_t2i_payload, build_edit_payload, hneg]
  · intro hpos
    simp [build_t2i_payload, build_edit_payload, hpos]

theorem C1_seed_inclusion_witness :
    ((build_t2i_payload "a cat" .square 1 1 0).seed = none
      ∧ (build_edit_payload "a cat" ["u"] 1920 1080 1 1 0).seed = none)
  ∧ ((build_t2i_payload "a cat" .square 1 1 42).seed = some 42
      ∧ (build_edit_payload "a cat" ["u"] 1920 1080 1 1 42).seed = some 42) :=
  ⟨(C1_seed_inclusion "a cat" .square 1 1 0 ["u"] 1920 1080).1 (by decide),
   (C1_seed_inclusion "a cat" .square 1 1 42 ["u"] 1920 1080).2 (by decide)⟩

/-- C2: every width/height placed in an outgoing payload — from the size
preset table (text-to-image) or from the session state that the render pass
clamps at src/app.py:204-205 before the edit payload is built — lies in
[1024, 4096]; out-of-range values are clamped, never rejected (the clamp is
total). -/
theorem C2_sent_size_in_range (opt : SizeOptionT2I) (w h : Int) (p : String)
    (urls : List String) (nimg mimg : Nat) (s : Int) :
    (1024 ≤ (build_t2i_payload p opt nimg mimg s).image_size.width
      ∧ (build_t2i_payload p opt nimg mimg s).image_size.width ≤ 4096
      ∧ 1024 ≤ (build_t2i_payload p opt nimg mimg s).image_size.height
      ∧ (build_t2i_payload p opt nimg mimg s).image_size.height ≤ 4096)
  ∧ (1024 ≤ (build_edit_payload p urls (edit_session_clamp w h).1
        (edit_session_clamp w h).2 nimg mimg s).image_size.width
      ∧ (build_edit_payload p urls (edit_session_clamp w h).1
        (edit_session_clamp w h).2 nimg mimg s).image_size.width ≤ 4096
      ∧ 1024 ≤ (build_edit_payload p urls (edit_session_clamp w h).1
        (edit_session_clamp w h).2 nimg mimg s).image_size.height
      ∧ (build_edit_payload p urls (edit_session_clamp w h).1
        (edit_session_clamp w h).2 nimg mimg s).image_size.height ≤ 4096) := by
  constructor
  · cases opt <;> norm_num [build_t2i_payload, image_size_map]
  · exact ⟨clampDim_lower w, clampDim_upper w, clampDim_lower h, clampDim_upper h⟩

/-- C3 counterexample: with detected resolution (800, 600) and the 2x scale,
the size sent is NOT (1600, 1200) — the detection handler clamps (800, 600)
up to the base (1024, 1024) first, so 2x yields (2048, 2048). -/
theorem C3_detect2x_800x600_cex :
    ¬ ((detect_then_scale2x 800 600).sent_width = 1600
       ∧ (detect_then_scale2x 800 600).sent_height = 1200) := by decide

/-- C3 amended: detection clamps the probed (800, 600) to base (1024, 1024)
(emitting the adjustment warning), the 2x scale then doubles the base to a
pre-clamp target of (2048, 2048), and (2048, 2048) — in range — is sent. -/
theorem C3_detect2x_800x600_amended :
    detect_then_scale2x 800 600 =
      { preclamp_width := 2048, preclamp_height := 2048,
        sent_width := 2048, sent_height := 2048, clamp_warning := true } := by decide

/-- C4 counterexample: for detected resolution (3000, 3000) with the 2x
scale, the clamped-warning flag is NOT set — the only warning site is the
detection handler (src/app.py:182), which did not clamp (3000, 3000), and
the scale/pre-send clamps (src/app.py:200-205) emit no warning. -/
theorem C4_detect2x_3000_no_warning_cex :
    ¬ ((detect_then_scale2x 3000 3000).clamp_warning = true) := by decide

/-- C4 amended: the clamp warning is emitted exactly when the detection-time
clamp altered the detected resolution; the scale path adds no warning. For
detected (3000, 3000) with 2x the pre-clamp target is (6000, 6000) and the
sent size is (4096, 4096), but no warning is emitted, because the detection
clamp left (3000, 3000) unchanged. -/
theorem C4_clamp_warning_amended (w h : Int) :
    ((analyze_set_resolution w h).clamp_warning
        = (clampDim w != w || clampDim h != h))
  ∧ ((detect_then_scale2x w h).clamp_warning
        = (analyze_set_resolution w h).clamp_warning)
  ∧ (detect_then_scale2x 3000 3000).preclamp_width = 6000
  ∧ (detect_then_scale2x 3000 3000).preclamp_height = 6000
  ∧ (detect_then_scale2x 3000 3000).sent_width = 4096
  ∧ (detect_then_scale2x 3000 3000).sent_height = 4096
  ∧ (detect_then_scale2x 3000 3000).clamp_warning = false :=
  ⟨rfl, rfl, by decide, by decide, by decide, by decide, by decide⟩

/-- C5 counterexample: a network timeout is handled with the very same error
kind as an arbitrary other exception — there is no distinct transport error
kind; the except-chain (src/app.py:135-138) only separates `HTTPError` from
`Exception`. -/
theorem C5_transport_kind_not_distinct_cex :
    (handle_request_error (PyExc.timeout "connection timed out")).kind
      = (handle_request_error (PyExc.otherExc "key error")).kind := rfl

/-- C5 amended: network failures (connection errors and timeouts) fall into
the generic `except Exception` handler and share its error kind; only HTTP
(non-2xx) errors receive a distinct kind. -/
theorem C5_error_kinds_amended (s : Int) (b m : String) :
    handle_request_error (PyExc.httpError s b) = Handled.httpKind s b
  ∧ handle_request_error (PyExc.connectionError m) = Handled.genericKind m
  ∧ handle_request_error (PyExc.timeout m) = Handled.genericKind m
  ∧ handle_request_error (PyExc.otherExc m) = Handled.genericKind m
  ∧ (Handled.httpKind s b).kind ≠ (Handled.genericKind m).kind :=
  ⟨rfl, rfl, rfl, rfl, by simp [Handled.kind]⟩

/-- C6: if the API key is missing, or the required input is missing (empty
prompt for text-to-image; empty prompt or empty URL list for edit), the click
resolves to a blocking message and never to an API call. -/
theorem C6_guards_block_before_network (key p : String) (opt : SizeOptionT2I)
    (nimg mimg : Nat) (s : Int) (urls : List String) (w h : Int) :
    ((key = "" ∨ p = "") →
        (generate_click key p opt nimg mimg s).isApiCall = false
      ∧ (generate_click key p opt nimg mimg s).isBlockingMessage = true)
  ∧ ((key = "" ∨ p = "" ∨ urls = []) →
        (edit_click key p urls w h nimg mimg s).isApiCall = false
      ∧ (edit_click key p urls w h nimg mimg s).isBlockingMessage = true) := by
  constructor
  · intro hyp
    by_cases hk : key = ""
    · simp [generate_click, hk, UIAction.isApiCall, UIAction.isBlockingMessage]
    · have hp : p = "" := hyp.resolve_left hk
      simp [generate_click, hk, hp, UIAction.isApiCall, UIAction.isBlockingMessage]
  · intro hyp
    by_cases hk : key = ""
    · simp [edit_click, hk, UIAction.isApiCall, UIAction.isBlockingMessage]
    · rcases hyp with h | h | h
      · exact absurd h hk
      · simp [edit_click, hk, h, UIAction.isApiCall, UIAction.isBlockingMessage]
      · simp [edit_click, hk, h, UIAction.isApiCall, UIAction.isBlockingMessage]

theorem C6_guards_block_before_network_witness :
    ((generate_click "" "a cat" .square 1 1 0).isApiCall = false
      ∧ (generate_click "" "a cat" .square 1 1 0).isBlockingMessage = true)
  ∧ ((edit_click "some-key" "fix it" [] 1920 1080 1 1 0).isApiCall = false
      ∧ (edit_click "some-key" "fix it" [] 1920 1080 1 1 0).isBlockingMessage = true) :=
  ⟨(C6_guards_block_before_network "" "a cat" .square 1 1 0 [] 1920 1080).1 (Or.inl rfl),
   (C6_guards_block_before_network "some-key" "fix it" .square 1 1 0 [] 1920 1080).2
     (Or.inr (Or.inr rfl))⟩

/-- C7: a response whose `images` key is absent or an empty list renders as a
warning carrying the raw response — never as an error; a non-empty `images`
list renders a success view whose captions enumerate the images by 1-based
index and whose seed line reports the response's seed. -/
theorem C7_render_images_outcomes (cap : String) (r : ApiResponse) :
    ((r.images = none ∨ r.images = some []) → render_result cap r = .warningView r)
  ∧ (∀ img rest, r.images = some (img :: rest) →
        render_result cap r = .successView (seed_used_line r.seed)
          ((img :: rest).enum.map (fun pr => (pr.2.url, cap ++ toString (pr.1 + 1))))
      ∧ (((img :: rest).enum.map
            (fun pr => (pr.2.url, cap ++ toString (pr.1 + 1)))).map Prod.fst
          = (img :: rest).map ImageObj.url)
      ∧ (((img :: rest).enum.map
            (fun pr => (pr.2.url, cap ++ toString (pr.1 + 1)))).map Prod.snd
          = (List.range (img :: rest).length).map (fun i => cap ++ toString (i + 1))))
  ∧ (∀ msg, render_result cap r ≠ .errorView msg) := by
  obtain ⟨imgs, sd⟩ := r
  refine ⟨?_, ?_, ?_⟩
  · rintro (h | h) <;> simp only at h <;> subst h <;> rfl
  · intro img rest h
    simp only at h
    subst h
    refine ⟨rfl, ?_, ?_⟩
    · rw [List.map_map]
      have hf : (Prod.fst ∘ fun pr : Nat × ImageObj =>
          (pr.2.url, cap ++ toString (pr.1 + 1))) = ImageObj.url ∘ Prod.snd := rfl
      rw [hf, ← List.map_map, List.enum_map_snd]
    · rw [List.map_map]
      have hs : (Prod.snd ∘ fun pr : Nat × ImageObj =>
          (pr.2.url, cap ++ toString (pr.1 + 1)))
            = (fun i => cap ++ toString (i + 1)) ∘ Prod.fst := rfl
      rw [hs, ← List.map_map, List.enum_map_fst]
  · intro msg
    match imgs with
    | none => simp [render_result]
    | some [] => simp [render_result]
    | some (img :: rest) => simp [render_result]

theorem C7_render_images_outcomes_witness :
    (render_result "Generated Image " { images := some [], seed := none }
        = .warningView { images := some [], seed := none })
  ∧ (render_result "Generated Image " { images := some [{ url := "http://x/1.png" }], seed := some 42 }
        = .successView "**Seed used:** 42" [("http://x/1.png", "Generated Image 1")]) :=
  ⟨(C7_render_images_outcomes "Generated Image " { images := some [], seed := none }).1
      (Or.inr rfl),
   by
    have h := ((C7_render_images_outcomes "Generated Image "
        { images := some [{ url := "http://x/1.png" }], seed := some 42 }).2.1
        { url := "http://x/1.png" } [] rfl).1
    simpa using h⟩

/-- C8: the resolution prober maps every failing fetch/decode outcome to the
`(None, None)` sentinel — the surrounding `except Exception` catches every
exception its body can raise — and returns `(width, height)` on success. -/
theorem C8_probe_never_throws (o : ProbeOutcome) (m : String) (s : Int)
    (w h : Int) (c : ByteContent) :
    get_image_resolution (.netFail m) = (none, none)
  ∧ (400 ≤ s → get_image_resolution (.httpResp s c) = (none, none))
  ∧ get_image_resolution (.httpResp s (.nonImage m)) = (none, none)
  ∧ (s < 400 → get_image_resolution (.httpResp s (.imageBytes w h)) = (some w, some h))
  ∧ (∀ e, probe_body o = .error e → get_image_resolution o = (none, none)) := by
  refine ⟨rfl, ?_, ?_, ?_, ?_⟩
  · intro hs
    simp [get_image_resolution, probe_body, probe_requests_get,
      probe_raise_for_status, if_pos hs]
  · by_cases hs : 400 ≤ s <;>
      simp [get_image_resolution, probe_body, probe_requests_get,
        probe_raise_for_status, image_open, hs]
  · intro hs
    simp [get_image_resolution, probe_body, probe_requests_get,
      probe_raise_for_status, image_open, not_le.mpr hs]
  · intro e he
    simp [get_image_resolution, he]

theorem C8_probe_never_throws_witness :
    get_image_resolution (.netFail "name resolution failure") = (none, none)
  ∧ get_image_resolution (.httpResp 404 (.imageBytes 800 600)) = (none, none)
  ∧ get_image_resolution (.httpResp 200 (.nonImage "not an image")) = (none, none)
  ∧ get_image_resolution (.httpResp 200 (.imageBytes 800 600)) = (some 800, some 600) :=
  ⟨(C8_probe_never_throws (.netFail "x") "name resolution failure" 0 0 0 (.nonImage "x")).1,
   (C8_probe_never_throws (.netFail "x") "m" 404 0 0 (.imageBytes 800 600)).2.1 (by decide),
   (C8_probe_never_throws (.netFail "x") "not an image" 200 0 0 (.nonImage "x")).2.2.1,
   (C8_probe_never_throws (.netFail "x") "m" 200 800 600 (.nonImage "x")).2.2.2.1 (by decide)⟩

/-- C9: the error text rendered for any error path is independent of the API
key — the key influences only the request headers, never the displayed
message, even though HTTP errors embed the response status and body. -/
theorem C9_key_never_in_error_text (k1 k2 : String) (e : PyExc) :
    render_error_text k1 e = render_error_text k2 e
  ∧ ("Authorization", "Key " ++ k1) ∈ build_headers k1 := by
  constructor
  · cases e <;> rfl
  · simp [build_headers]

/-- C10: both outgoing payloads carry `enable_safety_checker = false` for
every possible input — no user input reaches that field. -/
theorem C10_safety_checker_always_false (p : String) (opt : SizeOptionT2I)
    (nimg mimg : Nat) (s : Int) (urls : List String) (w h : Int) :
    (build_t2i_payload p opt nimg mimg s).enable_safety_checker = false
  ∧ (build_edit_payload p urls w h nimg mimg s).enable_safety_checker = false :=
  ⟨rfl, rfl⟩
